import Mathlib

/-!
Verification of the FFBeast wheel HID protocol layer
(`src/reference_cpp/ffbeast-wheel-api-lib/wheel_api.cpp`).

The codec builds fixed 65-byte HID report frames and parses feature/state
reports.  Frames are modelled as `List Nat` (bytes as `Nat` values below
256).  The HID transport (hidapi) is an external collaborator; it is
modelled as an oracle (`Transport`) together with an explicit trace of the
transport calls an operation performs (`TransportCall`), so that the
"no transport call when disconnected" contract is observable.
-/



/-- Modelled from the spec: the header `wheel_api.h` is not among the
repository sources, so the report-identifier constants are external; the
spec says only that they are an 8-bit enumeration of five report kinds whose
values must match firmware.  Concrete distinct byte values stand in for
them; no claim depends on the particular values. -/
def REPORT_GENERIC_INPUT_OUTPUT : Nat := 1

/-- Modelled from the spec: feature-report identifier for effect settings. -/
def REPORT_EFFECT_SETTINGS_FEATURE : Nat := 2

/-- Modelled from the spec: feature-report identifier for hardware settings. -/
def REPORT_HARDWARE_SETTINGS_FEATURE : Nat := 3

/-- Modelled from the spec: feature-report identifier for GPIO-extension settings. -/
def REPORT_GPIO_SETTINGS_FEATURE : Nat := 4

/-- Modelled from the spec: feature-report identifier for ADC-extension settings. -/
def REPORT_ADC_SETTINGS_FEATURE : Nat := 5

/-- Modelled from the spec: command/data discriminator values (byte 1 of a
generic-I/O frame), an enumeration with distinct values: SAVE_SETTINGS,
REBOOT, DFU_MODE, RESET_CENTER, OVERRIDE_DATA, SETTINGS_FIELD_DATA. -/
def DATA_COMMAND_SAVE_SETTINGS : Nat := 11

/-- Modelled from the spec: discriminator for the reboot command. -/
def DATA_COMMAND_REBOOT : Nat := 12

/-- Modelled from the spec: discriminator for the enter-DFU command. -/
def DATA_COMMAND_DFU_MODE : Nat := 13

/-- Modelled from the spec: discriminator for the reset-center command. -/
def DATA_COMMAND_RESET_CENTER : Nat := 14

/-- Modelled from the spec: discriminator for a direct-control override body. -/
def DATA_OVERRIDE_DATA : Nat := 15

/-- Modelled from the spec: discriminator for a settings field-data body. -/
def DATA_SETTINGS_FIELD_DATA : Nat := 16

/-- Object byte of an `int8_t` value: its two's-complement bit pattern
(also the `int8_t → uint8_t` implicit conversion in C). -/
def int8ToByte (v : Int) : Nat := (v % 256).toNat

/-- Read a byte back as a signed 8-bit integer. -/
def byteToInt8 (b : Nat) : Int := if b < 128 then (b : Int) else (b : Int) - 256

/-- The `int16_t → uint16_t` implicit conversion in C: the two's-complement
bit pattern of the signed value. -/
def int16ToUInt16 (v : Int) : Nat := (v % 65536).toNat

/-- Object bytes of an `int16_t` value, host little-endian order. -/
def int16ToBytes (v : Int) : List Nat :=
  [(v % 256).toNat, (v % 65536).toNat / 256]

/-- Object bytes of a `uint16_t` value, host little-endian order. -/
def uint16ToBytes (v : Nat) : List Nat := [v % 256, v / 256 % 256]

/-- Object bytes of a 32-bit word, host little-endian order.  A `float`
setting value is modelled by its 32-bit object representation, since the
codec only ever copies its bytes verbatim. -/
def word32ToBytes (v : Nat) : List Nat :=
  [v % 256, v / 256 % 256, v / 65536 % 256, v / 16777216 % 256]

/-- The zero-initialized 65-byte report buffer (`HidInOutReportTypeDef genericReport = {}`). -/
def zeroFrame : List Nat := List.replicate 65 0

/-- `memcpy` into a buffer at a byte offset: bytes `i .. i + vs.length - 1`
of `l` are replaced by `vs`, the rest is untouched (assuming the write fits,
which the callers' packed struct layouts guarantee). -/
def writeBytesAt (l : List Nat) (i : Nat) (vs : List Nat) : List Nat :=
  l.take i ++ vs ++ l.drop (i + vs.length)

/-- A transport call made by an operation, for observing the
"no transport call when disconnected" contract. -/
inductive TransportCall where
  | write (frame : List Nat)
  | getFeature (reportId size : Nat)
  | readTimeout (size timeoutMs : Nat)
deriving DecidableEq

/-- The HID transport oracle: results of `hid_write`,
`hid_get_feature_report` (count and filled buffer) and `hid_read_timeout`
(count and filled buffer). -/
structure Transport where
  writeResult : List Nat → Int
  featureReport : Nat → Nat → Int × List Nat
  readWithTimeout : Nat → Nat → Int × List Nat

/-- The API object: all operations only test whether the `hid_device*`
handle member is null, so the handle is `Option Unit`. -/
structure WheelApi where
  handle : Option Unit

/-- A device descriptor from `hid_enumerate` (`struct hid_device_info`):
the fields `connect` reads. -/
structure DeviceInfo where
  path : Nat
  interfaceNumber : Int

/-- Enumeration/open oracle for `connect`: the enumerated device list and
the outcome of `hid_open_path` on each path. -/
structure HidEnv where
  enumerate : List DeviceInfo
  openPath : Nat → Option Unit

/-- Calls `connect` makes against hidapi, for observing that the
enumeration list is freed on every outcome. -/
inductive HidCall where
  | enumerate
  | openPath (p : Nat)
  | freeEnumeration

namespace WheelApi

/-- `WheelApi::connect`: walk the enumeration for the first device with
interface number 0, open its path if found (`result = 1` is set whether or
not the open yields a non-null handle), free the enumeration, return
`result`.  Returns the result, the new value of the `handle` member
(unchanged if no path was found), and the hidapi call trace. -/
def connect (env : HidEnv) (h0 : Option Unit) : Int × Option Unit × List HidCall :=
  match env.enumerate.find? (fun d => d.interfaceNumber == 0) with
  | some d =>
    (1, env.openPath d.path, [HidCall.enumerate, HidCall.openPath d.path, HidCall.freeEnumeration])
  | none => (0, h0, [HidCall.enumerate, HidCall.freeEnumeration])

/-- Frame built by `WheelApi::saveAndReboot`: zeroed buffer, byte 0 :=
generic report id, byte 1 (`DataReportTypeDef.ReportData`) := SAVE_SETTINGS. -/
def saveAndRebootFrame : List Nat :=
  (zeroFrame.set 0 REPORT_GENERIC_INPUT_OUTPUT).set 1 DATA_COMMAND_SAVE_SETTINGS

/-- Frame built by `WheelApi::rebootController`. -/
def rebootControllerFrame : List Nat :=
  (zeroFrame.set 0 REPORT_GENERIC_INPUT_OUTPUT).set 1 DATA_COMMAND_REBOOT

/-- Frame built by `WheelApi::switchtoDfu`. -/
def switchtoDfuFrame : List Nat :=
  (zeroFrame.set 0 REPORT_GENERIC_INPUT_OUTPUT).set 1 DATA_COMMAND_DFU_MODE

/-- Frame built by `WheelApi::resetCenter`. -/
def resetCenterFrame : List Nat :=
  (zeroFrame.set 0 REPORT_GENERIC_INPUT_OUTPUT).set 1 DATA_COMMAND_RESET_CENTER

/-- `WheelApi::saveAndReboot`: if connected, write the command frame and
return `hid_write`'s result; otherwise return 0 with no transport call. -/
def saveAndReboot (api : WheelApi) (tr : Transport) : Int × List TransportCall :=
  match api.handle with
  | none => (0, [])
  | some _ => (tr.writeResult saveAndRebootFrame, [TransportCall.write saveAndRebootFrame])

/-- `WheelApi::rebootController`. -/
def rebootController (api : WheelApi) (tr : Transport) : Int × List TransportCall :=
  match api.handle with
  | none => (0, [])
  | some _ => (tr.writeResult rebootControllerFrame, [TransportCall.write rebootControllerFrame])

/-- `WheelApi::switchtoDfu`. -/
def switchtoDfu (api : WheelApi) (tr : Transport) : Int × List TransportCall :=
  match api.handle with
  | none => (0, [])
  | some _ => (tr.writeResult switchtoDfuFrame, [TransportCall.write switchtoDfuFrame])

/-- `WheelApi::resetCenter`. -/
def resetCenter (api : WheelApi) (tr : Transport) : Int × List TransportCall :=
  match api.handle with
  | none => (0, [])
  | some _ => (tr.writeResult resetCenterFrame, [TransportCall.write resetCenterFrame])

/-- `WheelApi::CreateInt8SettingsReport`: byte 0 := generic id, byte 1 :=
SETTINGS_FIELD_DATA, byte 2 := fieldId, byte 3 := index, byte 4 := the
`int8_t` value's object byte.  Layout offsets follow the packed structs
`DataReportTypeDef` / `FieldDataTypeDef` / `FieldValueTypeDef` (header
absent; modelled from the spec's wire-layout table). -/
def CreateInt8SettingsReport (fieldId index : Nat) (value : Int) : List Nat :=
  writeBytesAt
    ((((zeroFrame.set 0 REPORT_GENERIC_INPUT_OUTPUT).set 1 DATA_SETTINGS_FIELD_DATA).set 2
        fieldId).set 3 index)
    4 [int8ToByte value]

/-- `WheelApi::CreateInt16SettingsReport`: as above with the `int16_t`
value's two object bytes at offsets 4–5. -/
def CreateInt16SettingsReport (fieldId index : Nat) (value : Int) : List Nat :=
  writeBytesAt
    ((((zeroFrame.set 0 REPORT_GENERIC_INPUT_OUTPUT).set 1 DATA_SETTINGS_FIELD_DATA).set 2
        fieldId).set 3 index)
    4 (int16ToBytes value)

/-- `WheelApi::CreateUInt8SettingsReport`. -/
def CreateUInt8SettingsReport (fieldId index : Nat) (value : Nat) : List Nat :=
  writeBytesAt
    ((((zeroFrame.set 0 REPORT_GENERIC_INPUT_OUTPUT).set 1 DATA_SETTINGS_FIELD_DATA).set 2
        fieldId).set 3 index)
    4 [value % 256]

/-- `WheelApi::CreateUInt16SettingsReport`. -/
def CreateUInt16SettingsReport (fieldId index : Nat) (value : Nat) : List Nat :=
  writeBytesAt
    ((((zeroFrame.set 0 REPORT_GENERIC_INPUT_OUTPUT).set 1 DATA_SETTINGS_FIELD_DATA).set 2
        fieldId).set 3 index)
    4 (uint16ToBytes value)

/-- `WheelApi::CreateFloatSettingsReport`: the `float` value's four object
bytes (modelled as a 32-bit word) at offsets 4–7. -/
def CreateFloatSettingsReport (fieldId index : Nat) (value : Nat) : List Nat :=
  writeBytesAt
    ((((zeroFrame.set 0 REPORT_GENERIC_INPUT_OUTPUT).set 1 DATA_SETTINGS_FIELD_DATA).set 2
        fieldId).set 3 index)
    4 (word32ToBytes value)

/-- `WheelApi::sendInt8SettingReport` (`index : int8_t` converts to the
`uint8_t` parameter of the Create helper). -/
def sendInt8SettingReport (api : WheelApi) (tr : Transport) (field : Nat) (index value : Int) :
    Int × List TransportCall :=
  match api.handle with
  | none => (0, [])
  | some _ =>
    (tr.writeResult (CreateInt8SettingsReport field (int8ToByte index) value),
      [TransportCall.write (CreateInt8SettingsReport field (int8ToByte index) value)])

/-- `WheelApi::sendInt16SettingReport`: the source calls
`CreateUInt16SettingsReport` (not the Int16 one); the `int16_t` argument
converts to the `uint16_t` parameter as its bit pattern. -/
def sendInt16SettingReport (api : WheelApi) (tr : Transport) (field : Nat) (index value : Int) :
    Int × List TransportCall :=
  match api.handle with
  | none => (0, [])
  | some _ =>
    (tr.writeResult (CreateUInt16SettingsReport field (int8ToByte index) (int16ToUInt16 value)),
      [TransportCall.write
        (CreateUInt16SettingsReport field (int8ToByte index) (int16ToUInt16 value))])

/-- `WheelApi::sendUInt8SettingReport`. -/
def sendUInt8SettingReport (api : WheelApi) (tr : Transport) (field : Nat) (index : Int)
    (value : Nat) : Int × List TransportCall :=
  match api.handle with
  | none => (0, [])
  | some _ =>
    (tr.writeResult (CreateUInt8SettingsReport field (int8ToByte index) value),
      [TransportCall.write (CreateUInt8SettingsReport field (int8ToByte index) value)])

/-- `WheelApi::sendUInt16SettingReport`. -/
def sendUInt16SettingReport (api : WheelApi) (tr : Transport) (field : Nat) (index : Int)
    (value : Nat) : Int × List TransportCall :=
  match api.handle with
  | none => (0, [])
  | some _ =>
    (tr.writeResult (CreateUInt16SettingsReport field (int8ToByte index) value),
      [TransportCall.write (CreateUInt16SettingsReport field (int8ToByte index) value)])

/-- `WheelApi::sendFloatSettingReport`. -/
def sendFloatSettingReport (api : WheelApi) (tr : Transport) (field : Nat) (index : Int)
    (value : Nat) : Int × List TransportCall :=
  match api.handle with
  | none => (0, [])
  | some _ =>
    (tr.writeResult (CreateFloatSettingsReport field (int8ToByte index) value),
      [TransportCall.write (CreateFloatSettingsReport field (int8ToByte index) value)])

/-- Frame built by `WheelApi::sendDirectControl`: zeroed buffer, byte 0 :=
generic id, byte 1 := OVERRIDE_DATA, then `memcpy` of the Direct Control
structure's bytes at offset 2 (`DataReportTypeDef.Buffer`). -/
def sendDirectControlFrame (control : List Nat) : List Nat :=
  writeBytesAt ((zeroFrame.set 0 REPORT_GENERIC_INPUT_OUTPUT).set 1 DATA_OVERRIDE_DATA) 2 control

/-- `WheelApi::sendDirectControl`. -/
def sendDirectControl (api : WheelApi) (tr : Transport) (control : List Nat) :
    Int × List TransportCall :=
  match api.handle with
  | none => (0, [])
  | some _ =>
    (tr.writeResult (sendDirectControlFrame control),
      [TransportCall.write (sendDirectControlFrame control)])

/-- `WheelApi::readEffectSettings`, parameterized by `n`, the byte size of
`EffectSettingsTypeDef` (header absent).  If connected, request the feature
report (buffer size `n + 1`: report id byte plus the settings struct); when
the transport's count is positive, `memcpy` bytes 1..n of the returned
buffer into the destination; the transport's count is returned. -/
def readEffectSettings (api : WheelApi) (tr : Transport) (n : Nat) (destination : List Nat) :
    Int × List TransportCall × List Nat :=
  match api.handle with
  | none => (0, [], destination)
  | some _ =>
    let r := tr.featureReport REPORT_EFFECT_SETTINGS_FEATURE (n + 1)
    if r.1 > 0 then
      (r.1, [TransportCall.getFeature REPORT_EFFECT_SETTINGS_FEATURE (n + 1)], (r.2.drop 1).take n)
    else
      (r.1, [TransportCall.getFeature REPORT_EFFECT_SETTINGS_FEATURE (n + 1)], destination)

/-- `WheelApi::readHardwareSettings`.  In the source the `int result`
inside the `if (handle != nullptr)` block shadows the outer `result`, so
the function returns the outer `result`, which is still 0 — the transport
count governs the copy but is not returned. -/
def readHardwareSettings (api : WheelApi) (tr : Transport) (n : Nat) (destination : List Nat) :
    Int × List TransportCall × List Nat :=
  match api.handle with
  | none => (0, [], destination)
  | some _ =>
    let r := tr.featureReport REPORT_HARDWARE_SETTINGS_FEATURE (n + 1)
    if r.1 > 0 then
      (0, [TransportCall.getFeature REPORT_HARDWARE_SETTINGS_FEATURE (n + 1)], (r.2.drop 1).take n)
    else
      (0, [TransportCall.getFeature REPORT_HARDWARE_SETTINGS_FEATURE (n + 1)], destination)

/-- `WheelApi::readGpioExtensionSettings` — same shadowed `result` as
`readHardwareSettings`: always returns 0 once connected. -/
def readGpioExtensionSettings (api : WheelApi) (tr : Transport) (n : Nat)
    (destination : List Nat) : Int × List TransportCall × List Nat :=
  match api.handle with
  | none => (0, [], destination)
  | some _ =>
    let r := tr.featureReport REPORT_GPIO_SETTINGS_FEATURE (n + 1)
    if r.1 > 0 then
      (0, [TransportCall.getFeature REPORT_GPIO_SETTINGS_FEATURE (n + 1)], (r.2.drop 1).take n)
    else
      (0, [TransportCall.getFeature REPORT_GPIO_SETTINGS_FEATURE (n + 1)], destination)

/-- `WheelApi::readAdcExtensionSettings` — same shadowed `result` as
`readHardwareSettings`: always returns 0 once connected. -/
def readAdcExtensionSettings (api : WheelApi) (tr : Transport) (n : Nat)
    (destination : List Nat) : Int × List TransportCall × List Nat :=
  match api.handle with
  | none => (0, [], destination)
  | some _ =>
    let r := tr.featureReport REPORT_ADC_SETTINGS_FEATURE (n + 1)
    if r.1 > 0 then
      (0, [TransportCall.getFeature REPORT_ADC_SETTINGS_FEATURE (n + 1)], (r.2.drop 1).take n)
    else
      (0, [TransportCall.getFeature REPORT_ADC_SETTINGS_FEATURE (n + 1)], destination)

/-- `WheelApi::readState`, parameterized by `n`, the byte size of
`DeviceStateTypeDef`: a 65-byte `hid_read_timeout` with a 100 ms bound;
on a positive count, copy bytes 1..n into the destination; the count is
returned (0 on timeout, negative on failure). -/
def readState (api : WheelApi) (tr : Transport) (n : Nat) (destination : List Nat) :
    Int × List TransportCall × List Nat :=
  match api.handle with
  | none => (0, [], destination)
  | some _ =>
    let r := tr.readWithTimeout 65 100
    if r.1 > 0 then
      (r.1, [TransportCall.readTimeout 65 100], (r.2.drop 1).take n)
    else
      (r.1, [TransportCall.readTimeout 65 100], destination)

end WheelApi

/-- Field Data decode, per the wire layout: byte 2 is the Field Identifier. -/
def decodeFieldId (frame : List Nat) : Nat := frame.getD 2 0

/-- Field Data decode: byte 3 read back as the signed 8-bit Index. -/
def decodeIndex (frame : List Nat) : Int := byteToInt8 (frame.getD 3 0)

/-- Field Data decode of an `int8` value slot (offset 4). -/
def decodeInt8Value (frame : List Nat) : Int := byteToInt8 (frame.getD 4 0)

/-- Field Data decode of a `uint8` value slot (offset 4). -/
def decodeUInt8Value (frame : List Nat) : Nat := frame.getD 4 0

/-- Field Data decode of a `uint16` value slot (offsets 4–5, little-endian). -/
def decodeUInt16Value (frame : List Nat) : Nat := frame.getD 4 0 + 256 * frame.getD 5 0

/-- Field Data decode of an `int16` value slot (offsets 4–5, two's complement). -/
def decodeInt16Value (frame : List Nat) : Int :=
  if decodeUInt16Value frame < 32768 then (decodeUInt16Value frame : Int)
  else (decodeUInt16Value frame : Int) - 65536

/-- Field Data decode of a `float` value slot as its 32-bit object
representation (offsets 4–7, little-endian). -/
def decodeFloatValue (frame : List Nat) : Nat :=
  frame.getD 4 0 + 256 * frame.getD 5 0 + 65536 * frame.getD 6 0 + 16777216 * frame.getD 7 0

lemma saveAndRebootFrame_eq :
    WheelApi.saveAndRebootFrame =
      REPORT_GENERIC_INPUT_OUTPUT :: DATA_COMMAND_SAVE_SETTINGS :: List.replicate 63 0 := rfl

lemma CreateInt8SettingsReport_eq (f i : Nat) (v : Int) :
    WheelApi.CreateInt8SettingsReport f i v =
      REPORT_GENERIC_INPUT_OUTPUT :: DATA_SETTINGS_FIELD_DATA :: f :: i ::
        int8ToByte v :: List.replicate 60 0 := rfl

lemma CreateInt16SettingsReport_eq (f i : Nat) (v : Int) :
    WheelApi.CreateInt16SettingsReport f i v =
      REPORT_GENERIC_INPUT_OUTPUT :: DATA_SETTINGS_FIELD_DATA :: f :: i ::
        (v % 256).toNat :: (v % 65536).toNat / 256 :: List.replicate 59 0 := rfl

lemma CreateUInt8SettingsReport_eq (f i : Nat) (v : Nat) :
    WheelApi.CreateUInt8SettingsReport f i v =
      REPORT_GENERIC_INPUT_OUTPUT :: DATA_SETTINGS_FIELD_DATA :: f :: i ::
        v % 256 :: List.replicate 60 0 := rfl

lemma CreateUInt16SettingsReport_eq (f i : Nat) (v : Nat) :
    WheelApi.CreateUInt16SettingsReport f i v =
      REPORT_GENERIC_INPUT_OUTPUT :: DATA_SETTINGS_FIELD_DATA :: f :: i ::
        v % 256 :: v / 256 % 256 :: List.replicate 59 0 := rfl

lemma CreateFloatSettingsReport_eq (f i : Nat) (v : Nat) :
    WheelApi.CreateFloatSettingsReport f i v =
      REPORT_GENERIC_INPUT_OUTPUT :: DATA_SETTINGS_FIELD_DATA :: f :: i ::
        v % 256 :: v / 256 % 256 :: v / 65536 % 256 :: v / 16777216 % 256 ::
        List.replicate 57 0 := rfl

lemma byteToInt8_int8ToByte (v : Int) (h1 : -128 ≤ v) (h2 : v < 128) :
    byteToInt8 (int8ToByte v) = v := by
  unfold byteToInt8 int8ToByte
  have hn : ((v % 256).toNat : Int) = v % 256 :=
    Int.toNat_of_nonneg (Int.emod_nonneg v (by norm_num))
  split <;> omega

/-- A transport oracle whose every primitive reports count `k` and fills
buffers with the byte 7, used to evaluate operations at concrete inputs. -/
def trConst (k : Int) : Transport :=
  { writeResult := fun _ => k
    featureReport := fun _ n => (k, List.replicate n 7)
    readWithTimeout := fun n _ => (k, List.replicate n 7) }

/-- An enumeration exposing one device with interface number 0 whose path
fails to open (`hid_open_path` returns null). -/
def envOpenFails : HidEnv :=
  { enumerate := [{ path := 7, interfaceNumber := 0 }]
    openPath := fun _ => none }

/-- C3: every operation of the API (the four commands, the five typed
setting sends, sendDirectControl, the four settings reads, and readState)
invoked with no connection handle returns the zero "no effect" result,
leaves the destination untouched, and performs no transport call. -/
theorem operations_noop_when_disconnected (tr : Transport) (n : Nat)
    (dest control : List Nat) (field : Nat) (idx v8 v16 : Int) (u8 u16 vf : Nat) :
    WheelApi.saveAndReboot ⟨none⟩ tr = (0, []) ∧
    WheelApi.rebootController ⟨none⟩ tr = (0, []) ∧
    WheelApi.switchtoDfu ⟨none⟩ tr = (0, []) ∧
    WheelApi.resetCenter ⟨none⟩ tr = (0, []) ∧
    WheelApi.sendInt8SettingReport ⟨none⟩ tr field idx v8 = (0, []) ∧
    WheelApi.sendInt16SettingReport ⟨none⟩ tr field idx v16 = (0, []) ∧
    WheelApi.sendUInt8SettingReport ⟨none⟩ tr field idx u8 = (0, []) ∧
    WheelApi.sendUInt16SettingReport ⟨none⟩ tr field idx u16 = (0, []) ∧
    WheelApi.sendFloatSettingReport ⟨none⟩ tr field idx vf = (0, []) ∧
    WheelApi.sendDirectControl ⟨none⟩ tr control = (0, []) ∧
    WheelApi.readEffectSettings ⟨none⟩ tr n dest = (0, [], dest) ∧
    WheelApi.readHardwareSettings ⟨none⟩ tr n dest = (0, [], dest) ∧
    WheelApi.readGpioExtensionSettings ⟨none⟩ tr n dest = (0, [], dest) ∧
    WheelApi.readAdcExtensionSettings ⟨none⟩ tr n dest = (0, [], dest) ∧
    WheelApi.readState ⟨none⟩ tr n dest = (0, [], dest) :=
  ⟨rfl, rfl, rfl, rfl, rfl, rfl, rfl, rfl, rfl, rfl, rfl, rfl, rfl, rfl, rfl⟩

/-- C5: each of the four no-body command frames is 65 bytes, zero
everywhere except byte 0 (the generic-input-output report identifier) and
byte 1 (the command discriminator); any two distinct command frames agree
at byte 0 and at every byte from offset 2 on, and differ at byte 1. -/
theorem command_frames_layout :
    (WheelApi.saveAndRebootFrame.length = 65 ∧
      WheelApi.saveAndRebootFrame.getD 0 0 = REPORT_GENERIC_INPUT_OUTPUT ∧
      WheelApi.saveAndRebootFrame.getD 1 0 = DATA_COMMAND_SAVE_SETTINGS ∧
      WheelApi.saveAndRebootFrame.drop 2 = List.replicate 63 0) ∧
    (WheelApi.rebootControllerFrame.length = 65 ∧
      WheelApi.rebootControllerFrame.getD 0 0 = REPORT_GENERIC_INPUT_OUTPUT ∧
      WheelApi.rebootControllerFrame.getD 1 0 = DATA_COMMAND_REBOOT ∧
      WheelApi.rebootControllerFrame.drop 2 = List.replicate 63 0) ∧
    (WheelApi.switchtoDfuFrame.length = 65 ∧
      WheelApi.switchtoDfuFrame.getD 0 0 = REPORT_GENERIC_INPUT_OUTPUT ∧
      WheelApi.switchtoDfuFrame.getD 1 0 = DATA_COMMAND_DFU_MODE ∧
      WheelApi.switchtoDfuFrame.drop 2 = List.replicate 63 0) ∧
    (WheelApi.resetCenterFrame.length = 65 ∧
      WheelApi.resetCenterFrame.getD 0 0 = REPORT_GENERIC_INPUT_OUTPUT ∧
      WheelApi.resetCenterFrame.getD 1 0 = DATA_COMMAND_RESET_CENTER ∧
      WheelApi.resetCenterFrame.drop 2 = List.replicate 63 0) ∧
    (WheelApi.saveAndRebootFrame.getD 0 0 = WheelApi.rebootControllerFrame.getD 0 0 ∧
      WheelApi.saveAndRebootFrame.drop 2 = WheelApi.rebootControllerFrame.drop 2 ∧
      WheelApi.saveAndRebootFrame.getD 1 0 ≠ WheelApi.rebootControllerFrame.getD 1 0) ∧
    (WheelApi.saveAndRebootFrame.getD 0 0 = WheelApi.switchtoDfuFrame.getD 0 0 ∧
      WheelApi.saveAndRebootFrame.drop 2 = WheelApi.switchtoDfuFrame.drop 2 ∧
      WheelApi.saveAndRebootFrame.getD 1 0 ≠ WheelApi.switchtoDfuFrame.getD 1 0) ∧
    (WheelApi.saveAndRebootFrame.getD 0 0 = WheelApi.resetCenterFrame.getD 0 0 ∧
      WheelApi.saveAndRebootFrame.drop 2 = WheelApi.resetCenterFrame.drop 2 ∧
      WheelApi.saveAndRebootFrame.getD 1 0 ≠ WheelApi.resetCenterFrame.getD 1 0) ∧
    (WheelApi.rebootControllerFrame.getD 0 0 = WheelApi.switchtoDfuFrame.getD 0 0 ∧
      WheelApi.rebootControllerFrame.drop 2 = WheelApi.switchtoDfuFrame.drop 2 ∧
      WheelApi.rebootControllerFrame.getD 1 0 ≠ WheelApi.switchtoDfuFrame.getD 1 0) ∧
    (WheelApi.rebootControllerFrame.getD 0 0 = WheelApi.resetCenterFrame.getD 0 0 ∧
      WheelApi.rebootControllerFrame.drop 2 = WheelApi.resetCenterFrame.drop 2 ∧
      WheelApi.rebootControllerFrame.getD 1 0 ≠ WheelApi.resetCenterFrame.getD 1 0) ∧
    (WheelApi.switchtoDfuFrame.getD 0 0 = WheelApi.resetCenterFrame.getD 0 0 ∧
      WheelApi.switchtoDfuFrame.drop 2 = WheelApi.resetCenterFrame.drop 2 ∧
      WheelApi.switchtoDfuFrame.getD 1 0 ≠ WheelApi.resetCenterFrame.getD 1 0) := by
  decide

/-- C1 fails on the code: with a live handle and a transport whose
feature-report primitive reports count 33, `readHardwareSettings`,
`readGpioExtensionSettings` and `readAdcExtensionSettings` return 0 (their
inner `int result` shadows the returned one), while `readEffectSettings`
does return the transport's 33 unchanged. -/
theorem shadowed_reads_drop_transport_result :
    (WheelApi.readHardwareSettings ⟨some ()⟩ (trConst 33) 4 (List.replicate 4 0)).1 = 0 ∧
    (WheelApi.readGpioExtensionSettings ⟨some ()⟩ (trConst 33) 4 (List.replicate 4 0)).1 = 0 ∧
    (WheelApi.readAdcExtensionSettings ⟨some ()⟩ (trConst 33) 4 (List.replicate 4 0)).1 = 0 ∧
    ((trConst 33).featureReport REPORT_HARDWARE_SETTINGS_FEATURE 5).1 = 33 ∧
    (WheelApi.readEffectSettings ⟨some ()⟩ (trConst 33) 4 (List.replicate 4 0)).1 = 33 := by
  decide

/-- C2 fails on the code: when the enumeration lists a device with
interface number 0 whose path fails to open, `connect` still returns 1
(success) although no valid handle was obtained (the handle is null); the
enumeration is freed and the first matching device's path was the one
opened. -/
theorem connect_reports_success_with_null_handle :
    WheelApi.connect envOpenFails none =
      (1, none, [HidCall.enumerate, HidCall.openPath 7, HidCall.freeEnumeration]) := rfl

/-- C4: for each of the five value types, encoding a typed setting report
with field identifier F, index I and value V, then decoding the frame's
Field Data (byte 2 = field id, byte 3 = index, bytes 4.. = value in its
natural byte representation) recovers exactly F, I and V; the float value
is identified with its 32-bit object representation. -/
theorem settings_report_roundtrip
    (F : Nat) (I v8 v16 : Int) (u8 u16 vf : Nat)
    (hF : F < 256) (hI1 : -128 ≤ I) (hI2 : I < 128)
    (h81 : -128 ≤ v8) (h82 : v8 < 128)
    (h161 : -32768 ≤ v16) (h162 : v16 < 32768)
    (hu8 : u8 < 256) (hu16 : u16 < 65536) (hvf : vf < 4294967296) :
    (decodeFieldId (WheelApi.CreateInt8SettingsReport F (int8ToByte I) v8) = F ∧
      decodeIndex (WheelApi.CreateInt8SettingsReport F (int8ToByte I) v8) = I ∧
      decodeInt8Value (WheelApi.CreateInt8SettingsReport F (int8ToByte I) v8) = v8) ∧
    (decodeFieldId (WheelApi.CreateInt16SettingsReport F (int8ToByte I) v16) = F ∧
      decodeIndex (WheelApi.CreateInt16SettingsReport F (int8ToByte I) v16) = I ∧
      decodeInt16Value (WheelApi.CreateInt16SettingsReport F (int8ToByte I) v16) = v16) ∧
    (decodeFieldId (WheelApi.CreateUInt8SettingsReport F (int8ToByte I) u8) = F ∧
      decodeIndex (WheelApi.CreateUInt8SettingsReport F (int8ToByte I) u8) = I ∧
      decodeUInt8Value (WheelApi.CreateUInt8SettingsReport F (int8ToByte I) u8) = u8) ∧
    (decodeFieldId (WheelApi.CreateUInt16SettingsReport F (int8ToByte I) u16) = F ∧
      decodeIndex (WheelApi.CreateUInt16SettingsReport F (int8ToByte I) u16) = I ∧
      decodeUInt16Value (WheelApi.CreateUInt16SettingsReport F (int8ToByte I) u16) = u16) ∧
    (decodeFieldId (WheelApi.CreateFloatSettingsReport F (int8ToByte I) vf) = F ∧
      decodeIndex (WheelApi.CreateFloatSettingsReport F (int8ToByte I) vf) = I ∧
      decodeFloatValue (WheelApi.CreateFloatSettingsReport F (int8ToByte I) vf) = vf) := by
  have hIdx : byteToInt8 (int8ToByte I) = I := byteToInt8_int8ToByte I hI1 hI2
  refine ⟨⟨rfl, hIdx, byteToInt8_int8ToByte v8 h81 h82⟩, ⟨rfl, hIdx, ?_⟩,
    ⟨rfl, hIdx, ?_⟩, ⟨rfl, hIdx, ?_⟩, ⟨rfl, hIdx, ?_⟩⟩
  · have h1 : ((v16 % 256).toNat : Int) = v16 % 256 :=
      Int.toNat_of_nonneg (Int.emod_nonneg _ (by norm_num))
    have h2 : ((v16 % 65536).toNat : Int) = v16 % 65536 :=
      Int.toNat_of_nonneg (Int.emod_nonneg _ (by norm_num))
    simp only [CreateInt16SettingsReport_eq, decodeInt16Value, decodeUInt16Value,
      List.getD_cons_succ, List.getD_cons_zero]
    split <;> omega
  · simp only [CreateUInt8SettingsReport_eq, decodeUInt8Value, List.getD_cons_succ,
      List.getD_cons_zero]
    omega
  · simp only [CreateUInt16SettingsReport_eq, decodeUInt16Value, List.getD_cons_succ,
      List.getD_cons_zero]
    omega
  · simp only [CreateFloatSettingsReport_eq, decodeFloatValue, List.getD_cons_succ,
      List.getD_cons_zero]
    omega

/-- Witness for C4 at F = 7, I = -1, and values -5, -300, 200, 30000,
305419896. -/
theorem settings_report_roundtrip_witness :
    ((7 : Nat) < 256 ∧ (-128 : Int) ≤ (-1 : Int) ∧ ((-1 : Int) < 128) ∧
      ((-128 : Int) ≤ (-5 : Int)) ∧ ((-5 : Int) < 128) ∧
      ((-32768 : Int) ≤ (-300 : Int)) ∧ ((-300 : Int) < 32768) ∧
      (200 : Nat) < 256 ∧ (30000 : Nat) < 65536 ∧ (305419896 : Nat) < 4294967296) ∧
    ((decodeFieldId (WheelApi.CreateInt8SettingsReport 7 (int8ToByte (-1)) (-5)) = 7 ∧
        decodeIndex (WheelApi.CreateInt8SettingsReport 7 (int8ToByte (-1)) (-5)) = -1 ∧
        decodeInt8Value (WheelApi.CreateInt8SettingsReport 7 (int8ToByte (-1)) (-5)) = -5) ∧
      (decodeFieldId (WheelApi.CreateInt16SettingsReport 7 (int8ToByte (-1)) (-300)) = 7 ∧
        decodeIndex (WheelApi.CreateInt16SettingsReport 7 (int8ToByte (-1)) (-300)) = -1 ∧
        decodeInt16Value (WheelApi.CreateInt16SettingsReport 7 (int8ToByte (-1)) (-300)) = -300) ∧
      (decodeFieldId (WheelApi.CreateUInt8SettingsReport 7 (int8ToByte (-1)) 200) = 7 ∧
        decodeIndex (WheelApi.CreateUInt8SettingsReport 7 (int8ToByte (-1)) 200) = -1 ∧
        decodeUInt8Value (WheelApi.CreateUInt8SettingsReport 7 (int8ToByte (-1)) 200) = 200) ∧
      (decodeFieldId (WheelApi.CreateUInt16SettingsReport 7 (int8ToByte (-1)) 30000) = 7 ∧
        decodeIndex (WheelApi.CreateUInt16SettingsReport 7 (int8ToByte (-1)) 30000) = -1 ∧
        decodeUInt16Value (WheelApi.CreateUInt16SettingsReport 7 (int8ToByte (-1)) 30000) =
          30000) ∧
      (decodeFieldId (WheelApi.CreateFloatSettingsReport 7 (int8ToByte (-1)) 305419896) = 7 ∧
        decodeIndex (WheelApi.CreateFloatSettingsReport 7 (int8ToByte (-1)) 305419896) = -1 ∧
        decodeFloatValue (WheelApi.CreateFloatSettingsReport 7 (int8ToByte (-1)) 305419896) =
          305419896)) :=
  ⟨by decide,
    settings_report_roundtrip 7 (-1) (-5) (-300) 200 30000 305419896 (by decide) (by decide)
      (by decide) (by decide) (by decide) (by decide) (by decide) (by decide) (by decide)
      (by decide)⟩

/-- C9: for every typed setting report, the (signed 8-bit) index occupies
exactly byte 3 of the frame as its two's-complement byte pattern, decoding
byte 3 as signed 8-bit recovers the index, and changing the index leaves
the field-identifier byte (offset 2) and the value bytes (offset 4 onward)
untouched. -/
theorem index_boundary_encoding
    (F : Nat) (I J v8 v16 : Int) (u8 u16 vf : Nat)
    (hI1 : -128 ≤ I) (hI2 : I < 128) :
    ((WheelApi.CreateInt8SettingsReport F (int8ToByte I) v8).getD 3 0 = int8ToByte I ∧
      decodeIndex (WheelApi.CreateInt8SettingsReport F (int8ToByte I) v8) = I ∧
      decodeFieldId (WheelApi.CreateInt8SettingsReport F (int8ToByte I) v8) =
        decodeFieldId (WheelApi.CreateInt8SettingsReport F (int8ToByte J) v8) ∧
      (WheelApi.CreateInt8SettingsReport F (int8ToByte I) v8).drop 4 =
        (WheelApi.CreateInt8SettingsReport F (int8ToByte J) v8).drop 4) ∧
    ((WheelApi.CreateInt16SettingsReport F (int8ToByte I) v16).getD 3 0 = int8ToByte I ∧
      decodeIndex (WheelApi.CreateInt16SettingsReport F (int8ToByte I) v16) = I ∧
      decodeFieldId (WheelApi.CreateInt16SettingsReport F (int8ToByte I) v16) =
        decodeFieldId (WheelApi.CreateInt16SettingsReport F (int8ToByte J) v16) ∧
      (WheelApi.CreateInt16SettingsReport F (int8ToByte I) v16).drop 4 =
        (WheelApi.CreateInt16SettingsReport F (int8ToByte J) v16).drop 4) ∧
    ((WheelApi.CreateUInt8SettingsReport F (int8ToByte I) u8).getD 3 0 = int8ToByte I ∧
      decodeIndex (WheelApi.CreateUInt8SettingsReport F (int8ToByte I) u8) = I ∧
      decodeFieldId (WheelApi.CreateUInt8SettingsReport F (int8ToByte I) u8) =
        decodeFieldId (WheelApi.CreateUInt8SettingsReport F (int8ToByte J) u8) ∧
      (WheelApi.CreateUInt8SettingsReport F (int8ToByte I) u8).drop 4 =
        (WheelApi.CreateUInt8SettingsReport F (int8ToByte J) u8).drop 4) ∧
    ((WheelApi.CreateUInt16SettingsReport F (int8ToByte I) u16).getD 3 0 = int8ToByte I ∧
      decodeIndex (WheelApi.CreateUInt16SettingsReport F (int8ToByte I) u16) = I ∧
      decodeFieldId (WheelApi.CreateUInt16SettingsReport F (int8ToByte I) u16) =
        decodeFieldId (WheelApi.CreateUInt16SettingsReport F (int8ToByte J) u16) ∧
      (WheelApi.CreateUInt16SettingsReport F (int8ToByte I) u16).drop 4 =
        (WheelApi.CreateUInt16SettingsReport F (int8ToByte J) u16).drop 4) ∧
    ((WheelApi.CreateFloatSettingsReport F (int8ToByte I) vf).getD 3 0 = int8ToByte I ∧
      decodeIndex (WheelApi.CreateFloatSettingsReport F (int8ToByte I) vf) = I ∧
      decodeFieldId (WheelApi.CreateFloatSettingsReport F (int8ToByte I) vf) =
        decodeFieldId (WheelApi.CreateFloatSettingsReport F (int8ToByte J) vf) ∧
      (WheelApi.CreateFloatSettingsReport F (int8ToByte I) vf).drop 4 =
        (WheelApi.CreateFloatSettingsReport F (int8ToByte J) vf).drop 4) := by
  have hIdx : byteToInt8 (int8ToByte I) = I := byteToInt8_int8ToByte I hI1 hI2
  exact ⟨⟨rfl, hIdx, rfl, rfl⟩, ⟨rfl, hIdx, rfl, rfl⟩, ⟨rfl, hIdx, rfl, rfl⟩,
    ⟨rfl, hIdx, rfl, rfl⟩, ⟨rfl, hIdx, rfl, rfl⟩⟩

/-- Witness for C9 at the boundary index I = -128 against J = 127 (the
other extreme), with field 2 and values 5, -2, 9, 65535, 4294967295. -/
theorem index_boundary_encoding_witness :
    ((-128 : Int) ≤ (-128 : Int) ∧ (-128 : Int) < 128) ∧
    (((WheelApi.CreateInt8SettingsReport 2 (int8ToByte (-128)) 5).getD 3 0 =
        int8ToByte (-128) ∧
      decodeIndex (WheelApi.CreateInt8SettingsReport 2 (int8ToByte (-128)) 5) = -128 ∧
      decodeFieldId (WheelApi.CreateInt8SettingsReport 2 (int8ToByte (-128)) 5) =
        decodeFieldId (WheelApi.CreateInt8SettingsReport 2 (int8ToByte 127) 5) ∧
      (WheelApi.CreateInt8SettingsReport 2 (int8ToByte (-128)) 5).drop 4 =
        (WheelApi.CreateInt8SettingsReport 2 (int8ToByte 127) 5).drop 4) ∧
    ((WheelApi.CreateInt16SettingsReport 2 (int8ToByte (-128)) (-2)).getD 3 0 =
        int8ToByte (-128) ∧
      decodeIndex (WheelApi.CreateInt16SettingsReport 2 (int8ToByte (-128)) (-2)) = -128 ∧
      decodeFieldId (WheelApi.CreateInt16SettingsReport 2 (int8ToByte (-128)) (-2)) =
        decodeFieldId (WheelApi.CreateInt16SettingsReport 2 (int8ToByte 127) (-2)) ∧
      (WheelApi.CreateInt16SettingsReport 2 (int8ToByte (-128)) (-2)).drop 4 =
        (WheelApi.CreateInt16SettingsReport 2 (int8ToByte 127) (-2)).drop 4) ∧
    ((WheelApi.CreateUInt8SettingsReport 2 (int8ToByte (-128)) 9).getD 3 0 =
        int8ToByte (-128) ∧
      decodeIndex (WheelApi.CreateUInt8SettingsReport 2 (int8ToByte (-128)) 9) = -128 ∧
      decodeFieldId (WheelApi.CreateUInt8SettingsReport 2 (int8ToByte (-128)) 9) =
        decodeFieldId (WheelApi.CreateUInt8SettingsReport 2 (int8ToByte 127) 9) ∧
      (WheelApi.CreateUInt8SettingsReport 2 (int8ToByte (-128)) 9).drop 4 =
        (WheelApi.CreateUInt8SettingsReport 2 (int8ToByte 127) 9).drop 4) ∧
    ((WheelApi.CreateUInt16SettingsReport 2 (int8ToByte (-128)) 65535).getD 3 0 =
        int8ToByte (-128) ∧
      decodeIndex (WheelApi.CreateUInt16SettingsReport 2 (int8ToByte (-128)) 65535) = -128 ∧
      decodeFieldId (WheelApi.CreateUInt16SettingsReport 2 (int8ToByte (-128)) 65535) =
        decodeFieldId (WheelApi.CreateUInt16SettingsReport 2 (int8ToByte 127) 65535) ∧
      (WheelApi.CreateUInt16SettingsReport 2 (int8ToByte (-128)) 65535).drop 4 =
        (WheelApi.CreateUInt16SettingsReport 2 (int8ToByte 127) 65535).drop 4) ∧
    ((WheelApi.CreateFloatSettingsReport 2 (int8ToByte (-128)) 4294967295).getD 3 0 =
        int8ToByte (-128) ∧
      decodeIndex (WheelApi.CreateFloatSettingsReport 2 (int8ToByte (-128)) 4294967295) =
        -128 ∧
      decodeFieldId (WheelApi.CreateFloatSettingsReport 2 (int8ToByte (-128)) 4294967295) =
        decodeFieldId (WheelApi.CreateFloatSettingsReport 2 (int8ToByte 127) 4294967295) ∧
      (WheelApi.CreateFloatSettingsReport 2 (int8ToByte (-128)) 4294967295).drop 4 =
        (WheelApi.CreateFloatSettingsReport 2 (int8ToByte 127) 4294967295).drop 4)) :=
  ⟨by decide,
    index_boundary_encoding 2 (-128) 127 5 (-2) 9 65535 4294967295 (by decide) (by decide)⟩

/-- C6: the signed-16 send path reuses the unsigned-16 encoder, so for any
field, index, and 16-bit value, sending the signed value produces exactly
the frame of sending the unsigned value with the same two's-complement bit
pattern; moreover the two encoders CreateInt16SettingsReport and
CreateUInt16SettingsReport produce identical frames for identical bit
patterns. -/
theorem int16_send_reuses_uint16_encoder
    (api : WheelApi) (tr : Transport) (field : Nat) (idx s : Int) (u : Nat)
    (hs1 : -32768 ≤ s) (hs2 : s < 32768) (hu : u = int16ToUInt16 s) :
    WheelApi.sendInt16SettingReport api tr field idx s =
      WheelApi.sendUInt16SettingReport api tr field idx u ∧
    WheelApi.CreateInt16SettingsReport field (int8ToByte idx) s =
      WheelApi.CreateUInt16SettingsReport field (int8ToByte idx) u := by
  subst hu
  constructor
  · obtain ⟨h⟩ := api
    cases h <;> rfl
  · rw [CreateInt16SettingsReport_eq, CreateUInt16SettingsReport_eq]
    have hb1 : ((s % 256).toNat : Int) = s % 256 :=
      Int.toNat_of_nonneg (Int.emod_nonneg _ (by norm_num))
    have hb2 : ((s % 65536).toNat : Int) = s % 65536 :=
      Int.toNat_of_nonneg (Int.emod_nonneg _ (by norm_num))
    have e1 : (s % 256).toNat = int16ToUInt16 s % 256 := by
      simp only [int16ToUInt16]
      omega
    have e2 : int16ToUInt16 s / 256 % 256 = (s % 65536).toNat / 256 := by
      simp only [int16ToUInt16]
      omega
    rw [e1, e2]

/-- Witness for C6 at field 3, index -1, signed value -1, whose bit
pattern is 65535. -/
theorem int16_send_reuses_uint16_encoder_witness :
    ((-32768 : Int) ≤ (-1 : Int) ∧ (-1 : Int) < 32768 ∧
      (65535 : Nat) = int16ToUInt16 (-1)) ∧
    (WheelApi.sendInt16SettingReport ⟨some ()⟩ (trConst 1) 3 (-1) (-1) =
        WheelApi.sendUInt16SettingReport ⟨some ()⟩ (trConst 1) 3 (-1) 65535 ∧
      WheelApi.CreateInt16SettingsReport 3 (int8ToByte (-1)) (-1) =
        WheelApi.CreateUInt16SettingsReport 3 (int8ToByte (-1)) 65535) :=
  ⟨by decide,
    int16_send_reuses_uint16_encoder ⟨some ()⟩ (trConst 1) 3 (-1) (-1) 65535 (by decide)
      (by decide) (by decide)⟩

lemma readEffectSettings_connected (tr : Transport) (n : Nat) (dest : List Nat) :
    WheelApi.readEffectSettings ⟨some ()⟩ tr n dest =
      if (tr.featureReport REPORT_EFFECT_SETTINGS_FEATURE (n + 1)).1 > 0 then
        ((tr.featureReport REPORT_EFFECT_SETTINGS_FEATURE (n + 1)).1,
          [TransportCall.getFeature REPORT_EFFECT_SETTINGS_FEATURE (n + 1)],
          ((tr.featureReport REPORT_EFFECT_SETTINGS_FEATURE (n + 1)).2.drop 1).take n)
      else
        ((tr.featureReport REPORT_EFFECT_SETTINGS_FEATURE (n + 1)).1,
          [TransportCall.getFeature REPORT_EFFECT_SETTINGS_FEATURE (n + 1)], dest) := rfl

lemma readHardwareSettings_connected (tr : Transport) (n : Nat) (dest : List Nat) :
    WheelApi.readHardwareSettings ⟨some ()⟩ tr n dest =
      if (tr.featureReport REPORT_HARDWARE_SETTINGS_FEATURE (n + 1)).1 > 0 then
        (0, [TransportCall.getFeature REPORT_HARDWARE_SETTINGS_FEATURE (n + 1)],
          ((tr.featureReport REPORT_HARDWARE_SETTINGS_FEATURE (n + 1)).2.drop 1).take n)
      else
        (0, [TransportCall.getFeature REPORT_HARDWARE_SETTINGS_FEATURE (n + 1)], dest) := rfl

lemma readGpioExtensionSettings_connected (tr : Transport) (n : Nat) (dest : List Nat) :
    WheelApi.readGpioExtensionSettings ⟨some ()⟩ tr n dest =
      if (tr.featureReport REPORT_GPIO_SETTINGS_FEATURE (n + 1)).1 > 0 then
        (0, [TransportCall.getFeature REPORT_GPIO_SETTINGS_FEATURE (n + 1)],
          ((tr.featureReport REPORT_GPIO_SETTINGS_FEATURE (n + 1)).2.drop 1).take n)
      else
        (0, [TransportCall.getFeature REPORT_GPIO_SETTINGS_FEATURE (n + 1)], dest) := rfl

lemma readAdcExtensionSettings_connected (tr : Transport) (n : Nat) (dest : List Nat) :
    WheelApi.readAdcExtensionSettings ⟨some ()⟩ tr n dest =
      if (tr.featureReport REPORT_ADC_SETTINGS_FEATURE (n + 1)).1 > 0 then
        (0, [TransportCall.getFeature REPORT_ADC_SETTINGS_FEATURE (n + 1)],
          ((tr.featureReport REPORT_ADC_SETTINGS_FEATURE (n + 1)).2.drop 1).take n)
      else
        (0, [TransportCall.getFeature REPORT_ADC_SETTINGS_FEATURE (n + 1)], dest) := rfl

lemma readState_connected (tr : Transport) (n : Nat) (dest : List Nat) :
    WheelApi.readState ⟨some ()⟩ tr n dest =
      if (tr.readWithTimeout 65 100).1 > 0 then
        ((tr.readWithTimeout 65 100).1, [TransportCall.readTimeout 65 100],
          ((tr.readWithTimeout 65 100).2.drop 1).take n)
      else
        ((tr.readWithTimeout 65 100).1, [TransportCall.readTimeout 65 100], dest) := rfl

/-- C7: for each of the four settings feature-report reads, with a live
handle, when the transport reports success (positive count) on a buffer
whose byte 0 is the report identifier and whose remaining n bytes are
arbitrary payload, the destination ends up equal to exactly bytes 1..n of
the buffer (a verbatim copy skipping the 1-byte identifier). -/
theorem settings_feature_decode_copies_payload
    (tr : Transport) (n : Nat) (dest buf : List Nat) (r : Int)
    (hE : tr.featureReport REPORT_EFFECT_SETTINGS_FEATURE (n + 1) = (r, buf))
    (hH : tr.featureReport REPORT_HARDWARE_SETTINGS_FEATURE (n + 1) = (r, buf))
    (hG : tr.featureReport REPORT_GPIO_SETTINGS_FEATURE (n + 1) = (r, buf))
    (hA : tr.featureReport REPORT_ADC_SETTINGS_FEATURE (n + 1) = (r, buf))
    (hr : 0 < r) (hlen : buf.length = n + 1) :
    (WheelApi.readEffectSettings ⟨some ()⟩ tr n dest).2.2 = buf.drop 1 ∧
    (WheelApi.readHardwareSettings ⟨some ()⟩ tr n dest).2.2 = buf.drop 1 ∧
    (WheelApi.readGpioExtensionSettings ⟨some ()⟩ tr n dest).2.2 = buf.drop 1 ∧
    (WheelApi.readAdcExtensionSettings ⟨some ()⟩ tr n dest).2.2 = buf.drop 1 := by
  have htake : (buf.drop 1).take n = buf.drop 1 :=
    List.take_of_length_le (by simp [hlen])
  refine ⟨?_, ?_, ?_, ?_⟩
  · rw [readEffectSettings_connected, hE]
    simp [hr, htake]
    omega
  · rw [readHardwareSettings_connected, hH]
    simp [hr, htake]
    omega
  · rw [readGpioExtensionSettings_connected, hG]
    simp [hr, htake]
    omega
  · rw [readAdcExtensionSettings_connected, hA]
    simp [hr, htake]
    omega

/-- Witness for C7 with n = 2, a transport reporting count 1 and buffer
[7, 7, 7], and initial destination [9, 9]. -/
theorem settings_feature_decode_copies_payload_witness :
    ((trConst 1).featureReport REPORT_EFFECT_SETTINGS_FEATURE (2 + 1) = (1, [7, 7, 7]) ∧
      (trConst 1).featureReport REPORT_HARDWARE_SETTINGS_FEATURE (2 + 1) = (1, [7, 7, 7]) ∧
      (trConst 1).featureReport REPORT_GPIO_SETTINGS_FEATURE (2 + 1) = (1, [7, 7, 7]) ∧
      (trConst 1).featureReport REPORT_ADC_SETTINGS_FEATURE (2 + 1) = (1, [7, 7, 7]) ∧
      (0 : Int) < 1 ∧ ([7, 7, 7] : List Nat).length = 2 + 1) ∧
    ((WheelApi.readEffectSettings ⟨some ()⟩ (trConst 1) 2 [9, 9]).2.2 =
        ([7, 7, 7] : List Nat).drop 1 ∧
      (WheelApi.readHardwareSettings ⟨some ()⟩ (trConst 1) 2 [9, 9]).2.2 =
        ([7, 7, 7] : List Nat).drop 1 ∧
      (WheelApi.readGpioExtensionSettings ⟨some ()⟩ (trConst 1) 2 [9, 9]).2.2 =
        ([7, 7, 7] : List Nat).drop 1 ∧
      (WheelApi.readAdcExtensionSettings ⟨some ()⟩ (trConst 1) 2 [9, 9]).2.2 =
        ([7, 7, 7] : List Nat).drop 1) :=
  ⟨⟨rfl, rfl, rfl, rfl, by decide, rfl⟩,
    settings_feature_decode_copies_payload (trConst 1) 2 [9, 9] [7, 7, 7] 1 rfl rfl rfl rfl
      (by decide) rfl⟩

/-- C8: encoding a Direct Control structure writes its exact bytes at
offset 2 of the 65-byte frame (after the report identifier and the
OVERRIDE_DATA discriminator), so re-extracting its size in bytes from that
offset reproduces the structure bit-for-bit. -/
theorem direct_control_roundtrip (control : List Nat) (h : control.length ≤ 63) :
    ((WheelApi.sendDirectControlFrame control).drop 2).take control.length = control ∧
    (WheelApi.sendDirectControlFrame control).getD 0 0 = REPORT_GENERIC_INPUT_OUTPUT ∧
    (WheelApi.sendDirectControlFrame control).getD 1 0 = DATA_OVERRIDE_DATA ∧
    (WheelApi.sendDirectControlFrame control).length = 65 := by
  have e : WheelApi.sendDirectControlFrame control =
      REPORT_GENERIC_INPUT_OUTPUT :: DATA_OVERRIDE_DATA ::
        (control ++ (List.replicate 63 (0 : Nat)).drop control.length) := by
    simp only [WheelApi.sendDirectControlFrame, writeBytesAt]
    rw [Nat.add_comm 2 control.length]
    rfl
  refine ⟨?_, ?_, ?_, ?_⟩
  · rw [e]
    exact List.take_left control _
  · rw [e]; rfl
  · rw [e]; rfl
  · rw [e]
    simp [List.length_append, List.length_drop]
    omega

/-- Witness for C8 with a three-byte Direct Control structure [10, 20, 30]. -/
theorem direct_control_roundtrip_witness :
    (([10, 20, 30] : List Nat).length ≤ 63) ∧
    (((WheelApi.sendDirectControlFrame [10, 20, 30]).drop 2).take
        ([10, 20, 30] : List Nat).length = [10, 20, 30] ∧
      (WheelApi.sendDirectControlFrame [10, 20, 30]).getD 0 0 = REPORT_GENERIC_INPUT_OUTPUT ∧
      (WheelApi.sendDirectControlFrame [10, 20, 30]).getD 1 0 = DATA_OVERRIDE_DATA ∧
      (WheelApi.sendDirectControlFrame [10, 20, 30]).length = 65) :=
  ⟨by decide, direct_control_roundtrip [10, 20, 30] (by decide)⟩

/-- C10: for every read operation, when no handle exists, or when the
transport's count is zero or negative (failure or timeout), the
caller-supplied destination is left completely unchanged. -/
theorem read_failure_leaves_destination
    (tr : Transport) (n : Nat) (dest buf bufS : List Nat) (r : Int)
    (hE : tr.featureReport REPORT_EFFECT_SETTINGS_FEATURE (n + 1) = (r, buf))
    (hH : tr.featureReport REPORT_HARDWARE_SETTINGS_FEATURE (n + 1) = (r, buf))
    (hG : tr.featureReport REPORT_GPIO_SETTINGS_FEATURE (n + 1) = (r, buf))
    (hA : tr.featureReport REPORT_ADC_SETTINGS_FEATURE (n + 1) = (r, buf))
    (hS : tr.readWithTimeout 65 100 = (r, bufS))
    (hr : r ≤ 0) :
    (WheelApi.readEffectSettings ⟨none⟩ tr n dest).2.2 = dest ∧
    (WheelApi.readHardwareSettings ⟨none⟩ tr n dest).2.2 = dest ∧
    (WheelApi.readGpioExtensionSettings ⟨none⟩ tr n dest).2.2 = dest ∧
    (WheelApi.readAdcExtensionSettings ⟨none⟩ tr n dest).2.2 = dest ∧
    (WheelApi.readState ⟨none⟩ tr n dest).2.2 = dest ∧
    (WheelApi.readEffectSettings ⟨some ()⟩ tr n dest).2.2 = dest ∧
    (WheelApi.readHardwareSettings ⟨some ()⟩ tr n dest).2.2 = dest ∧
    (WheelApi.readGpioExtensionSettings ⟨some ()⟩ tr n dest).2.2 = dest ∧
    (WheelApi.readAdcExtensionSettings ⟨some ()⟩ tr n dest).2.2 = dest ∧
    (WheelApi.readState ⟨some ()⟩ tr n dest).2.2 = dest := by
  have hnot : ¬ (0 : Int) < r := by omega
  refine ⟨rfl, rfl, rfl, rfl, rfl, ?_, ?_, ?_, ?_, ?_⟩
  · rw [readEffectSettings_connected, hE]
    simp [hnot]
  · rw [readHardwareSettings_connected, hH]
    simp [hnot]
  · rw [readGpioExtensionSettings_connected, hG]
    simp [hnot]
  · rw [readAdcExtensionSettings_connected, hA]
    simp [hnot]
  · rw [readState_connected, hS]
    simp [hnot]

/-- Witness for C10 with n = 2, a transport reporting count -2 with buffer
[7, 7, 7], and initial destination [9, 9]. -/
theorem read_failure_leaves_destination_witness :
    ((trConst (-2)).featureReport REPORT_EFFECT_SETTINGS_FEATURE (2 + 1) = (-2, [7, 7, 7]) ∧
      (trConst (-2)).featureReport REPORT_HARDWARE_SETTINGS_FEATURE (2 + 1) =
        (-2, [7, 7, 7]) ∧
      (trConst (-2)).featureReport REPORT_GPIO_SETTINGS_FEATURE (2 + 1) = (-2, [7, 7, 7]) ∧
      (trConst (-2)).featureReport REPORT_ADC_SETTINGS_FEATURE (2 + 1) = (-2, [7, 7, 7]) ∧
      (trConst (-2)).readWithTimeout 65 100 = (-2, List.replicate 65 7) ∧
      (-2 : Int) ≤ 0) ∧
    ((WheelApi.readEffectSettings ⟨none⟩ (trConst (-2)) 2 [9, 9]).2.2 = [9, 9] ∧
      (WheelApi.readHardwareSettings ⟨none⟩ (trConst (-2)) 2 [9, 9]).2.2 = [9, 9] ∧
      (WheelApi.readGpioExtensionSettings ⟨none⟩ (trConst (-2)) 2 [9, 9]).2.2 = [9, 9] ∧
      (WheelApi.readAdcExtensionSettings ⟨none⟩ (trConst (-2)) 2 [9, 9]).2.2 = [9, 9] ∧
      (WheelApi.readState ⟨none⟩ (trConst (-2)) 2 [9, 9]).2.2 = [9, 9] ∧
      (WheelApi.readEffectSettings ⟨some ()⟩ (trConst (-2)) 2 [9, 9]).2.2 = [9, 9] ∧
      (WheelApi.readHardwareSettings ⟨some ()⟩ (trConst (-2)) 2 [9, 9]).2.2 = [9, 9] ∧
      (WheelApi.readGpioExtensionSettings ⟨some ()⟩ (trConst (-2)) 2 [9, 9]).2.2 = [9, 9] ∧
      (WheelApi.readAdcExtensionSettings ⟨some ()⟩ (trConst (-2)) 2 [9, 9]).2.2 = [9, 9] ∧
      (WheelApi.readState ⟨some ()⟩ (trConst (-2)) 2 [9, 9]).2.2 = [9, 9]) := by
  constructor
  · exact ⟨rfl, rfl, rfl, rfl, rfl, by decide⟩
  · have hbuf : (trConst (-2)).readWithTimeout 65 100 = (-2, List.replicate 65 7) := rfl
    exact read_failure_leaves_destination (trConst (-2)) 2 [9, 9] [7, 7, 7]
      (List.replicate 65 7) (-2) rfl rfl rfl rfl hbuf (by decide)
